import Mathlib

/-
Verification of the mini-server HTTP file server (src/main.rs).

The development is a shallow embedding of the request-handling code:
pure Rust functions become Lean functions, and the effectful filesystem
operations are made explicit parameters.  A response body is a list of
bytes (hyper bodies are byte buffers; string bodies are UTF-8 encoded).
The outcome of opening and fully reading a file at a given path is a
value of OpenResult, so a filesystem state is a function from paths to
OpenResult.  The state of the working directory, as seen by fs::read_dir,
is an optional list of directory entries (none models a read_dir failure),
where each entry records whether its name converts to a UTF-8 string
(OsString::into_string) and whether its metadata could be read and, if so,
whether the entry is a regular file.
-/

namespace MiniServer

/-- UTF-8 encoding of a single character as a list of byte values. -/
def utf8Char (c : Char) : List Nat :=
  let n := c.toNat
  if n < 128 then [n]
  else if n < 2048 then [192 + n / 64, 128 + n % 64]
  else if n < 65536 then [224 + n / 4096, 128 + (n / 64) % 64, 128 + n % 64]
  else [240 + n / 262144, 128 + (n / 4096) % 64, 128 + (n / 64) % 64, 128 + n % 64]

/-- UTF-8 encoding of a string as a list of byte values. -/
def utf8 (s : String) : List Nat := s.data.flatMap utf8Char

/-- An outgoing HTTP response: status code, the optional Content-type
header attached by the builders, and the body bytes.  This models the
data a Response Builder in main.rs puts into a hyper Response. -/
structure HResponse where
  status : Nat
  contentType : Option String
  body : List Nat
deriving DecidableEq

/-- Embeds not_found (main.rs lines 9 to 14): status 404, no Content-type
header, body is the text not found followed by CR LF. -/
def not_found : HResponse := ⟨404, none, utf8 "not found\r\n"⟩

/-- Embeds forbidden (main.rs lines 16 to 21): status 403, no Content-type
header, body is the text forbidden followed by CR LF. -/
def forbidden : HResponse := ⟨403, none, utf8 "forbidden\r\n"⟩

/-- Embeds trouble (main.rs lines 23 to 28): status 500, no Content-type
header, body is the text sad bear is sad followed by CR LF. -/
def trouble : HResponse := ⟨500, none, utf8 "sad bear is sad\r\n"⟩

/-- The name of a directory entry as returned by entry.file_name():
either it converts to a valid UTF-8 string or it does not
(OsString::into_string returns Err). -/
inductive EntryName where
  | utf8Name (s : String)
  | nonUtf8
deriving DecidableEq

/-- One directory entry as seen by the loop in files (main.rs lines 34
to 44): its name, the result of entry.metadata() (none when the metadata
read fails, otherwise whether the entry is a regular file), and the
entry path used in the diagnostic print. -/
structure DirEntry where
  name : EntryName
  metadata : Option Bool
  path : String
deriving DecidableEq

/-- Embeds the entry loop of files (main.rs lines 34 to 44).  Returns the
collected file names together with the list of paths for which a
diagnostic line (Couldnt get file type for ...) is printed.  An entry
with readable metadata that is a regular file contributes its name only
when the name converts to UTF-8; an entry whose metadata cannot be read
contributes one diagnostic; everything else is skipped silently. -/
def filesStep (e : DirEntry) (r : List String × List String) :
    List String × List String :=
  match e.metadata with
  | some isFile =>
    if isFile then
      match e.name with
      | EntryName.utf8Name s => (s :: r.1, r.2)
      | EntryName.nonUtf8 => r
    else r
  | none => (r.1, e.path :: r.2)

/-- The entry loop of files as a fold of filesStep over the entries in
iteration order. -/
def filesList : List DirEntry → List String × List String
  | [] => ([], [])
  | e :: rest => filesStep e (filesList rest)

/-- Embeds files (main.rs lines 30 to 47) over a directory state: none
models failure of fs::read_dir itself (the io::Result Err case), some
entries yields the names and diagnostics of the entry loop. -/
def files (dir : Option (List DirEntry)) : Option (List String × List String) :=
  match dir with
  | none => none
  | some entries => some (filesList entries)

/-- The value of a request header: either it converts to a string
(HeaderValue::to_str succeeds) or it is malformed (to_str returns Err). -/
inductive HeaderVal where
  | valid (s : String)
  | malformed
deriving DecidableEq

/-- An incoming request: URI path, method, protocol version, and the
optional user-agent header value. -/
structure HRequest where
  path : String
  method : String
  version : String
  userAgent : Option HeaderVal
deriving DecidableEq

/-- The fixed HTML skeleton opening index_view builds (main.rs lines 50
to 62), exactly the Rust string literal. -/
def index_header : String :=
  "\n<!DOCTYPE html>\n<html lang=\"en\">\n  <head>\n    <meta charset=\"UTF-8\">\n    <title>index</title>\n  </head>\n  <body>\n    <h3>Welcome</h3>\n<ul>\n"

/-- The list item chunk appended for one file name (main.rs line 65). -/
def li_chunk (fname : String) : String :=
  "<li><a href=\"" ++ fname ++ "\">" ++ fname ++ "</a></li>"

/-- Embeds index_view (main.rs lines 49 to 75).  The request argument is
unused, as in the source.  When files succeeds the names are appended as
list items; when it fails nothing is appended; the closing tags are then
appended and a 200 response with Content-type text/html is built. -/
def index_view (dir : Option (List DirEntry)) (_req : HRequest) : HResponse :=
  let contents := index_header
  let contents :=
    match files dir with
    | some r => r.1.foldl (fun acc fname => acc ++ li_chunk fname) contents
    | none => contents
  let contents := contents ++ "</ul></body></html>"
  ⟨200, some "text/html", utf8 contents⟩

/-- The outcome of File::open followed by read_to_end on one path:
open fails, open succeeds but the read fails, or the full contents are
read. -/
inductive OpenResult where
  | openErr
  | readErr
  | ok (contents : List Nat)
deriving DecidableEq

/-- A filesystem state: for each path, what opening and fully reading
that path would yield. -/
def FileSys := String → OpenResult

/-- Embeds the chars-next call of file_view (main.rs lines 78 to 80):
drop the first character of the path, whatever it is. -/
def strip_lead (s : String) : String := ⟨s.data.drop 1⟩

/-- Helper for substring search: does pat occur in the character list. -/
def hasSubstrAux (pat : List Char) : List Char → Bool
  | [] => pat.isEmpty
  | c :: rest => pat.isPrefixOf (c :: rest) || hasSubstrAux pat rest

/-- Embeds str::contains with a string pattern: true when pat occurs as a
contiguous substring of s. -/
def hasSubstr (s pat : String) : Bool := hasSubstrAux pat.data s.data

/-- Lowercasing as used by mime_type (Rust to_lowercase); on the ASCII
suffixes the table tests this agrees with the Rust function. -/
def strToLower (s : String) : String := ⟨s.data.map Char.toLower⟩

/-- Embeds str::ends_with: true when post is a suffix of s. -/
def strEndsWith (s post : String) : Bool := post.data.isSuffixOf s.data

/-- Embeds mime_type (main.rs lines 108 to 123): lowercase the path, then
test the five suffixes in order, defaulting to application/octet-stream. -/
def mime_type (path : String) : String :=
  let path := strToLower path
  if strEndsWith path "html" then "text/html"
  else if strEndsWith path "htm" then "text/html"
  else if strEndsWith path "txt" then "text/plain"
  else if strEndsWith path "wasm" then "application/wasm"
  else if strEndsWith path "js" then "text/javascript"
  else "application/octet-stream"

/-- Embeds file_response (main.rs lines 100 to 106): status 200,
Content-type from mime_type on the path, body is the file contents. -/
def file_response (path : String) (contents : List Nat) : HResponse :=
  ⟨200, some (mime_type path), contents⟩

/-- Embeds file_view (main.rs lines 77 to 98): strip the first character
of the URI path, reject paths containing two consecutive dots with
forbidden, otherwise map the open-and-read outcome to a response:
open failure to not_found, read failure to trouble, success to
file_response. -/
def file_view (fs : FileSys) (req : HRequest) : HResponse :=
  let path := strip_lead req.path
  if hasSubstr path ".." then forbidden
  else
    match fs path with
    | OpenResult.openErr => not_found
    | OpenResult.readErr => trouble
    | OpenResult.ok contents => file_response path contents

/-- The routing match of handle (main.rs lines 126 to 129): the path /
goes to index_view, every other path goes to file_view. -/
def route (dir : Option (List DirEntry)) (fs : FileSys) (req : HRequest) : HResponse :=
  if req.path = "/" then index_view dir req else file_view fs req

/-- One access log line as printed by handle (main.rs lines 136 to 144):
timestamp, URI, response status, method, protocol version, user-agent. -/
structure LogRecord where
  time : String
  uri : String
  status : Nat
  method : String
  version : String
  userAgent : String
deriving DecidableEq

/-- Embeds HeaderValue::to_str: a valid value converts, a malformed one
does not. -/
def headerToStr : HeaderVal → Option String
  | HeaderVal.valid s => some s
  | HeaderVal.malformed => none

/-- Embeds handle (main.rs lines 125 to 148).  The response is computed
by the route, then the user-agent value is resolved: a missing header
becomes the placeholder dash, a present header goes through to_str
followed by unwrap.  The unwrap panics when to_str fails, which the
embedding models as the none result: no response and no log line are
produced.  Otherwise the result is the response paired with the single
log record. -/
def handle (dir : Option (List DirEntry)) (fs : FileSys) (now : String)
    (req : HRequest) : Option (HResponse × LogRecord) :=
  let response := route dir fs req
  let ua? :=
    match req.userAgent with
    | some agent => headerToStr agent
    | none => some "-"
  match ua? with
  | some ua =>
    some (response, ⟨now, req.path, response.status, req.method, req.version, ua⟩)
  | none => none

/-- Embeds the u16 parse used for the PORT variable (std FromStr for u16):
an optional leading plus sign, then one or more ASCII digits, and the
value must fit in 16 bits; anything else fails. -/
def parse_u16 (s : String) : Option Nat :=
  let t :=
    match s.data with
    | c :: rest => if c = '+' then rest else s.data
    | [] => []
  if !t.isEmpty && t.all Char.isDigit then
    let n := t.foldl (fun acc c => 10 * acc + (c.toNat - 48)) 0
    if n < 65536 then some n else none
  else none

/-- Embeds the port resolution of main (main.rs lines 153 to 160): a
missing PORT variable yields 3000, a set value is parsed as u16 and any
parse failure also yields 3000. -/
def resolve_port (envPort : Option String) : Nat :=
  match envPort with
  | some v =>
    match parse_u16 v with
    | some n => n
    | none => 3000
  | none => 3000

/-- Helper for the status invariant: file_view only ever produces the
four builder statuses and carries a Content-type exactly on 200. -/
theorem file_view_status_cases (fs : FileSys) (req : HRequest) :
    ((file_view fs req).status = 200 ∨ (file_view fs req).status = 403 ∨
     (file_view fs req).status = 404 ∨ (file_view fs req).status = 500) ∧
    ((file_view fs req).contentType.isSome = true ↔ (file_view fs req).status = 200) := by
  unfold file_view
  by_cases hd : hasSubstr (strip_lead req.path) ".."
  · simp [hd, forbidden, utf8]
  · cases h : fs (strip_lead req.path) <;>
      simp [hd, h, not_found, trouble, file_response, utf8]

/-- C1: any request whose path, after dropping the leading character,
contains two consecutive dots is answered with the forbidden response,
for every filesystem state, so no file is consulted. -/
theorem file_view_forbidden_on_dots (fs : FileSys) (req : HRequest)
    (h : hasSubstr (strip_lead req.path) ".." = true) :
    file_view fs req = forbidden := by
  unfold file_view
  simp [h]

/-- Witness for C1 at the concrete path /../etc/passwd with a filesystem
on which every open succeeds. -/
theorem file_view_forbidden_on_dots_witness :
    file_view (fun _ => OpenResult.ok []) ⟨"/../etc/passwd", "GET", "HTTP/1.1", none⟩ =
      forbidden :=
  file_view_forbidden_on_dots (fun _ => OpenResult.ok [])
    ⟨"/../etc/passwd", "GET", "HTTP/1.1", none⟩ (by decide)

/-- C2: on a safe path whose open and full read succeed, the response is
status 200, the body is exactly the bytes read, and the Content-type is
mime_type applied to the stripped path. -/
theorem file_view_success (fs : FileSys) (req : HRequest) (contents : List Nat)
    (hsafe : hasSubstr (strip_lead req.path) ".." = false)
    (hopen : fs (strip_lead req.path) = OpenResult.ok contents) :
    file_view fs req = ⟨200, some (mime_type (strip_lead req.path)), contents⟩ := by
  unfold file_view
  simp [hsafe, hopen, file_response]

/-- Witness for C2 at the concrete path /hi.txt with contents the two
bytes of hi. -/
theorem file_view_success_witness :
    file_view (fun _ => OpenResult.ok [104, 105]) ⟨"/hi.txt", "GET", "HTTP/1.1", none⟩ =
      ⟨200, some (mime_type (strip_lead "/hi.txt")), [104, 105]⟩ :=
  file_view_success (fun _ => OpenResult.ok [104, 105])
    ⟨"/hi.txt", "GET", "HTTP/1.1", none⟩ [104, 105] (by decide) rfl

/-- C3: on a safe path, an open failure yields the not_found response, a
read failure yields the trouble response, and every non-200 outcome of
file_view is one of those two. -/
theorem file_view_safe_errors (fs : FileSys) (req : HRequest)
    (hsafe : hasSubstr (strip_lead req.path) ".." = false) :
    (fs (strip_lead req.path) = OpenResult.openErr → file_view fs req = not_found) ∧
    (fs (strip_lead req.path) = OpenResult.readErr → file_view fs req = trouble) ∧
    ((file_view fs req).status ≠ 200 →
      file_view fs req = not_found ∨ file_view fs req = trouble) := by
  unfold file_view
  cases h : fs (strip_lead req.path) <;>
    simp [hsafe, h, not_found, trouble, file_response]

/-- Witness for C3 at the concrete path /missing.txt on a filesystem
where every open fails. -/
theorem file_view_safe_errors_witness :
    file_view (fun _ => OpenResult.openErr) ⟨"/missing.txt", "GET", "HTTP/1.1", none⟩ =
      not_found :=
  (file_view_safe_errors (fun _ => OpenResult.openErr)
    ⟨"/missing.txt", "GET", "HTTP/1.1", none⟩ (by decide)).1 rfl

/-- C4: mime_type is total and equals the suffix table of the spec, with
html and htm collapsed to one disjunction, and it is case-insensitive on
the three sample spellings of an html file name. -/
theorem mime_type_spec :
    (∀ p : String,
      mime_type p =
        if strEndsWith (strToLower p) "html" || strEndsWith (strToLower p) "htm" then
          "text/html"
        else if strEndsWith (strToLower p) "txt" then "text/plain"
        else if strEndsWith (strToLower p) "wasm" then "application/wasm"
        else if strEndsWith (strToLower p) "js" then "text/javascript"
        else "application/octet-stream") ∧
    mime_type "FILE.HTML" = "text/html" ∧
    mime_type "file.html" = "text/html" ∧
    mime_type "file.Html" = "text/html" := by
  refine ⟨fun p => ?_, by decide, by decide, by decide⟩
  unfold mime_type
  cases h1 : strEndsWith (strToLower p) "html" <;>
    cases h2 : strEndsWith (strToLower p) "htm" <;> simp [h1, h2]

/-- C5: the index view always answers 200 with Content-type text/html,
and a total directory-listing failure produces the same page as an empty
directory. -/
theorem index_view_always_ok :
    (∀ dir req, (index_view dir req).status = 200 ∧
      (index_view dir req).contentType = some "text/html") ∧
    (∀ req, index_view none req = index_view (some []) req) := by
  exact ⟨fun dir req => ⟨rfl, rfl⟩, fun req => rfl⟩

/-- C6 counterexample: a request carrying a malformed user-agent header
makes handle panic on unwrap, modelled as the none result, so the request
is failed instead of being logged with the dash placeholder. -/
theorem handle_malformed_ua_fails :
    handle (some []) (fun _ => OpenResult.openErr) "2026-01-01T00:00:00+00:00"
      ⟨"/x", "GET", "HTTP/1.1", some HeaderVal.malformed⟩ = none := rfl

/-- C6 amended: the handler emits exactly one log record and returns the
response when the user-agent header is absent, logging the dash
placeholder, or present and valid, logging its value; but a present
malformed user-agent value makes the handler fail the request. -/
theorem handle_logging (dir : Option (List DirEntry)) (fs : FileSys)
    (now : String) (req : HRequest) :
    (req.userAgent = none →
      handle dir fs now req =
        some (route dir fs req,
          ⟨now, req.path, (route dir fs req).status, req.method, req.version, "-"⟩)) ∧
    (∀ s, req.userAgent = some (HeaderVal.valid s) →
      handle dir fs now req =
        some (route dir fs req,
          ⟨now, req.path, (route dir fs req).status, req.method, req.version, s⟩)) ∧
    (req.userAgent = some HeaderVal.malformed → handle dir fs now req = none) := by
  unfold handle
  refine ⟨fun h => ?_, fun s h => ?_, fun h => ?_⟩ <;> simp [h, headerToStr]

/-- Witness for the amended C6 at a concrete request with no user-agent
header. -/
theorem handle_logging_witness :
    handle (some []) (fun _ => OpenResult.openErr) "t" ⟨"/x", "GET", "HTTP/1.1", none⟩ =
      some (route (some []) (fun _ => OpenResult.openErr) ⟨"/x", "GET", "HTTP/1.1", none⟩,
        ⟨"t", "/x",
          (route (some []) (fun _ => OpenResult.openErr)
            ⟨"/x", "GET", "HTTP/1.1", none⟩).status,
          "GET", "HTTP/1.1", "-"⟩) :=
  (handle_logging (some []) (fun _ => OpenResult.openErr) "t"
    ⟨"/x", "GET", "HTTP/1.1", none⟩).1 rfl

/-- C7: port resolution is total: a missing variable and the two sample
invalid values resolve to 3000, any parse failure resolves to 3000, any
parse success resolves to the parsed value, and every parsed value fits
in 16 bits. -/
theorem resolve_port_spec :
    resolve_port none = 3000 ∧
    resolve_port (some "abc") = 3000 ∧
    resolve_port (some "999999") = 3000 ∧
    (∀ s n, parse_u16 s = some n → n < 65536) ∧
    (∀ s, parse_u16 s = none → resolve_port (some s) = 3000) ∧
    (∀ s n, parse_u16 s = some n → resolve_port (some s) = n) := by
  refine ⟨rfl, by decide, by decide, fun s n h => ?_, fun s h => ?_, fun s n h => ?_⟩
  · unfold parse_u16 at h
    simp only [] at h
    split at h
    · split at h
      · exact (Option.some.injEq _ _).mp h ▸ (by assumption)
      · exact absurd h (by simp)
    · exact absurd h (by simp)
  · simp [resolve_port, h]
  · simp [resolve_port, h]

/-- Witness for C7 at the concrete value 8080. -/
theorem resolve_port_spec_witness :
    resolve_port (some "8080") = 8080 :=
  resolve_port_spec.2.2.2.2.2 "8080" 8080 (by decide)

/-- C8: every response the handler routing produces has status 200, 403,
404 or 500, and carries a Content-type header exactly when the status is
200. -/
theorem route_status_invariant (dir : Option (List DirEntry)) (fs : FileSys)
    (req : HRequest) :
    ((route dir fs req).status = 200 ∨ (route dir fs req).status = 403 ∨
     (route dir fs req).status = 404 ∨ (route dir fs req).status = 500) ∧
    ((route dir fs req).contentType.isSome = true ↔ (route dir fs req).status = 200) := by
  unfold route
  by_cases hp : req.path = "/"
  · simp [hp, index_view]
  · simpa [hp] using file_view_status_cases fs req

/-- C9: the index view is a pure function of the directory state: it does
not depend on the request, so two invocations against an unchanged
directory produce byte-identical bodies. -/
theorem index_view_idempotent (dir : Option (List DirEntry)) (r₁ r₂ : HRequest) :
    (index_view dir r₁).body = (index_view dir r₂).body := rfl

/-- C10: a regular-file entry whose name is not valid UTF-8 is dropped
silently: removing it changes neither the name list nor the diagnostics;
and the diagnostics are exactly the paths of the entries whose metadata
could not be read. -/
theorem files_nonUtf8_silent :
    (∀ pre post e, e.name = EntryName.nonUtf8 → e.metadata = some true →
      filesList (pre ++ e :: post) = filesList (pre ++ post)) ∧
    (∀ entries, (filesList entries).2 =
      (entries.filter fun e => e.metadata.isNone).map fun e => e.path) := by
  constructor
  · intro pre post e hname hmeta
    induction pre with
    | nil => simp [filesList, filesStep, hname, hmeta]
    | cons a pre ih =>
      simp only [List.cons_append, filesList]
      exact congrArg (filesStep a) ih
  · intro entries
    induction entries with
    | nil => simp [filesList]
    | cons a rest ih =>
      rcases a with ⟨nm, md, pth⟩
      cases md with
      | none => simp [filesList, filesStep, ih]
      | some b =>
        cases b with
        | false => simp [filesList, filesStep, ih]
        | true => cases nm <;> simp [filesList, filesStep, ih]

/-- Witness for C10: dropping a regular-file entry with a non-UTF-8 name
leaves the result of the listing unchanged. -/
theorem files_nonUtf8_silent_witness :
    filesList [⟨EntryName.utf8Name "a.txt", some true, "./a.txt"⟩,
               ⟨EntryName.nonUtf8, some true, "./bad"⟩] =
      filesList [⟨EntryName.utf8Name "a.txt", some true, "./a.txt"⟩] :=
  files_nonUtf8_silent.1 [⟨EntryName.utf8Name "a.txt", some true, "./a.txt"⟩] []
    ⟨EntryName.nonUtf8, some true, "./bad"⟩ rfl rfl

end MiniServer
